import Mathlib

/-!
Shallow embedding of `src/coap_io_riot.c` (libcoap network I/O layer for
the RIOT/GNRC stack): `coap_network_send`, `coap_network_read`,
`get_port`, `get_udp_header` and `coap_run_once`.

Modelling conventions:
* The `coap_socket_t` flag word is modelled as a record of booleans
  (`connected`, `wantRead`, `canRead`), one per `COAP_SOCKET_*` bit used
  in this file; the bit values themselves live in a header outside the
  sources and are irrelevant to the logic.
* 16-bit on-wire fields (`sin_port`, `sin6_port`, `network_uint16_t`) are
  modelled as the pair of bytes as stored in memory (`NetU16`); a plain
  C `uint16_t` read of such a field is `load16 host_be`, parameterised by
  the host's endianness, so byte-order behaviour is explicit.
* External stack calls (`gnrc_pktsnip_search_type`, `gnrc_ipv6_get_header`,
  `xtimer_msg_receive_timeout`, `coap_write`, `coap_read`, registration)
  are modelled by environment-supplied data plus an explicit action trace.
-/

namespace CoapIoRiot

/-- A 16-bit field as it sits in memory: two bytes in on-wire (network)
order, `b0` first. -/
structure NetU16 where
  b0 : Fin 256
  b1 : Fin 256
deriving DecidableEq

/-- Reading a stored 16-bit field as a C `uint16_t` on a host whose
endianness is `host_be` (`true` = big-endian host). -/
def load16 (host_be : Bool) (p : NetU16) : Nat :=
  if host_be then p.b0.val * 256 + p.b1.val else p.b1.val * 256 + p.b0.val

/-- The all-zero 16-bit field. -/
def port0 : NetU16 := ⟨0, 0⟩

/-- `sa_family_t` values distinguished by `get_port`. -/
inductive SaFamily where
  | af_inet
  | af_inet6
  | af_other (n : Nat)
deriving DecidableEq

/-- `coap_address_t`: a sockaddr union tagged with an explicit size.
`sin_port` and `sin6_port` sit at the same offset of the union, so one
`port` field models both. `addrBytes` are the raw address bytes of the
populated variant. -/
structure CoapAddress where
  size : Nat
  family : SaFamily
  addrBytes : List Nat
  port : NetU16
deriving DecidableEq

/-- `udp_hdr_t`: four 16-bit on-wire fields, 8 bytes total. -/
structure UdpHdr where
  src_port : NetU16
  dst_port : NetU16
  length : NetU16
  checksum : NetU16
deriving DecidableEq

/-- `sizeof(udp_hdr_t)`. -/
def UDP_HDR_SIZE : Nat := 8

/-- The fields of `ipv6_hdr_t` this file reads: the 16-byte source and
destination addresses. -/
structure Ipv6Hdr where
  src : List Nat
  dst : List Nat
deriving DecidableEq

/-- A received GNRC fragment chain (`gnrc_pktsnip_t *`) as seen through
the accessors this file uses:
* `ipv6` is the result of `gnrc_ipv6_get_header` (`none` = no
  network-layer header in the chain);
* `udpSnip` is the result of `gnrc_pktsnip_search_type(_, GNRC_NETTYPE_UDP)`:
  outer `none` = no transport fragment, `some none` = fragment present but
  its `data` pointer is NULL, `some (some h)` = header region `h`;
* `payload` is the byte sequence that follows the 8-byte UDP header in
  the packet buffer (GNRC keeps header and payload contiguous), i.e. the
  bytes `memcpy` reads from `(uint8_t*)udp_hdr + sizeof(udp_hdr_t)`. -/
structure GnrcPkt where
  ipv6 : Option Ipv6Hdr
  udpSnip : Option (Option UdpHdr)
  payload : List Nat
deriving DecidableEq

/-- `gnrc_pkt_len_upto(pkt, GNRC_NETTYPE_UDP)` for a well-formed inbound
chain: the snips up to and including the UDP one hold the UDP header and
the payload. -/
def gnrc_pkt_len_upto_udp (pkt : GnrcPkt) : Nat :=
  UDP_HDR_SIZE + pkt.payload.length

/-- `get_udp_header`: search the chain for the UDP fragment and return
its `data` pointer, NULL if the fragment is missing or its data is NULL. -/
def get_udp_header (pkt : GnrcPkt) : Option UdpHdr :=
  match pkt.udpSnip with
  | some (some h) => some h
  | _ => none

/-- `coap_socket_t`: descriptor, the `COAP_SOCKET_*` flag bits used by
this file, and the pending fragment-chain reference `pkt`. -/
structure CoapSocket where
  fd : Nat
  connected : Bool
  wantRead : Bool
  canRead : Bool
  pkt : Option GnrcPkt
deriving DecidableEq

/-- `coap_session_t`, restricted to the field this file reads. -/
structure CoapSession where
  remote_addr : CoapAddress
deriving DecidableEq

/-- `coap_packet_t`: the packet record populated by `coap_network_read`. -/
structure CoapPacket where
  ifindex : Nat
  length : Nat
  payload : List Nat
  src : CoapAddress
  dst : CoapAddress
deriving DecidableEq

/-- Modelled from the spec: `COAP_RXBUFFER_SIZE`, the fixed receive-buffer
capacity of `coap_packet_t` (defined in the library's I/O header, which is
not part of these sources; the value is the library's default). -/
def COAP_RXBUFFER_SIZE : Nat := 1472

/-- Modelled from the spec: the fault code `EFAULT` returned (negated) on a
malformed chain; the numeric value comes from the platform's errno header. -/
def EFAULT : Nat := 14

/-- `sizeof(struct sockaddr_in6)`, the size tag stored into the record's
addresses. -/
def SIZEOF_SOCKADDR_IN6 : Nat := 28

/-- `AF_INET6` as stored into `sin6_family`. -/
def afInet6 : SaFamily := SaFamily.af_inet6

/-- Result of `coap_network_read`: the returned `ssize_t` plus the
post-state of the socket and of the caller's packet record. -/
structure ReadResult where
  ret : Int
  sock : CoapSocket
  packet : CoapPacket
deriving DecidableEq

/-- `coap_network_read(sock, packet)`.  Mirrors the C control flow:
CAN_READ gate, flag clear, header search, `-EFAULT` on malformed chain,
length computation with truncation to `COAP_RXBUFFER_SIZE`, population of
the record (zeroed-then-written sockaddr_in6 for src and dst), payload
copy of `len` bytes following the UDP header. -/
def coap_network_read (sock0 : CoapSocket) (packet : CoapPacket) : ReadResult :=
  if sock0.canRead = false then
    { ret := -1, sock := sock0, packet := packet }
  else
    -- clear has-data flag
    let sock := { sock0 with canRead := false }
    match sock.pkt with
    | none =>
      -- NULL chain: both header lookups fail
      { ret := -(EFAULT : Int), sock := sock, packet := packet }
    | some p =>
      match p.ipv6, p.udpSnip with
      | some ipv6_hdr, some (some udp_hdr) =>
        let len0 := gnrc_pkt_len_upto_udp p - UDP_HDR_SIZE
        let len := if len0 > COAP_RXBUFFER_SIZE then COAP_RXBUFFER_SIZE else len0
        { ret := (len : Int),
          sock := sock,
          packet :=
            { ifindex := sock.fd,
              length := if len > 0 then len else 0,
              payload := p.payload.take len,
              src := { size := SIZEOF_SOCKADDR_IN6, family := afInet6,
                       addrBytes := ipv6_hdr.src, port := udp_hdr.src_port },
              dst := { size := SIZEOF_SOCKADDR_IN6, family := afInet6,
                       addrBytes := ipv6_hdr.dst, port := udp_hdr.dst_port } } }
      | _, _ =>
        { ret := -(EFAULT : Int), sock := sock, packet := packet }

/-- One call into the underlying network stack made by `coap_network_send`. -/
inductive NetAction where
  | send (fd : Nat) (data : List Nat)
  | sendto (fd : Nat) (data : List Nat) (addr : CoapAddress) (size : Nat)
deriving DecidableEq

/-- Environment of `coap_network_send`: the value of
`coap_debug_send_packet()` (`false` = debug suppression active) and the
results the stack's `send`/`sendto` would return. -/
structure SendEnv where
  debug_send_packet : Bool
  send_result : Int
  sendto_result : Int
deriving DecidableEq

/-- Result of `coap_network_send`: the returned `ssize_t` and the trace of
stack send calls performed. -/
structure SendResult where
  ret : Int
  actions : List NetAction
deriving DecidableEq

/-- `coap_network_send(sock, session, data, datalen)`; `datalen` is
`data.length`. The critical log on a negative result does not alter the
returned value. -/
def coap_network_send (env : SendEnv) (sock : CoapSocket) (session : CoapSession)
    (data : List Nat) : SendResult :=
  if env.debug_send_packet = false then
    { ret := (data.length : Int), actions := [] }
  else if sock.connected then
    { ret := env.send_result, actions := [NetAction.send sock.fd data] }
  else
    { ret := env.sendto_result,
      actions := [NetAction.sendto sock.fd data session.remote_addr session.remote_addr.size] }

/-- `get_port(addr)`: the port of `addr` as a `uint16_t` (read with the
host's endianness from the stored on-wire bytes), or 0 when `addr` is NULL
or its family is neither `AF_INET` nor `AF_INET6`. -/
def get_port (host_be : Bool) (addr : Option CoapAddress) : Nat :=
  match addr with
  | some a =>
    match a.family with
    | SaFamily.af_inet => load16 host_be a.port
    | SaFamily.af_inet6 => load16 host_be a.port
    | SaFamily.af_other _ => 0
  | none => 0

/-- `coap_endpoint_t`, restricted to what `coap_run_once` reads: the bound
address and the descriptor of the endpoint's owned socket (`ep->sock.fd`;
the socket object itself is aliased into the gathered array by
`coap_write` and is looked up there by descriptor). -/
structure CoapEndpoint where
  bind_addr : CoapAddress
  sock_fd : Nat
deriving DecidableEq

/-- GNRC netapi message types dispatched on by `coap_run_once`. -/
inductive MsgType where
  | rcv
  | snd
  | set
  | get
  | other (n : Nat)
deriving DecidableEq

/-- An `msg_t` as received by `xtimer_msg_receive_timeout`: its type tag
and, for `rcv`, the fragment chain behind `msg.content.ptr`. -/
structure GnrcMsg where
  type : MsgType
  pkt : GnrcPkt
deriving DecidableEq

/-- `US_PER_SEC` (RIOT's microseconds-per-second constant). -/
def US_PER_SEC : Nat := 1000000

/-- The inner socket scan of the RCV dispatch: walk the gathered sockets,
and at the first one whose `fd` equals the matching endpoint's and that has
`WANT_READ` set, set `CAN_READ`, attach the chain and `break`. -/
def wakeFirst (fd : Nat) (pkt : GnrcPkt) : List CoapSocket → List CoapSocket
  | [] => []
  | s :: rest =>
    if s.fd = fd ∧ s.wantRead then
      { s with canRead := true, pkt := some pkt } :: rest
    else
      s :: wakeFirst fd pkt rest

/-- The `LL_FOREACH(ctx->endpoint, ep)` dispatch loop of the RCV case: for
every endpoint whose bound port (as read by `get_port`) equals the
datagram's on-wire destination port read as a `uint16_t`
(`udp_hdr->dst_port.u16`), run the inner socket scan. The `break` in the C
sits in the inner loop only, so the endpoint walk continues after a match. -/
def dispatchRcv (host_be : Bool) (dstPort : NetU16) (pkt : GnrcPkt) :
    List CoapEndpoint → List CoapSocket → List CoapSocket
  | [], socks => socks
  | ep :: eps, socks =>
    dispatchRcv host_be dstPort pkt eps
      (if get_port host_be (some ep.bind_addr) = load16 host_be dstPort then
        wakeFirst ep.sock_fd pkt socks
      else
        socks)

/-- Environment of one `coap_run_once` call: host endianness, what
`coap_write` returns (its timeout and the gathered socket array), the
context's endpoint list, the message delivered within the wait window
(`none` = the wait timed out), and the monotonic clock: `tickEntry` is the
`coap_ticks` value at entry, `tickPostWait` the value at the second sample
(taken after the wait/dispatch), and `tickPostRead` what the clock shows
once `coap_read` returns — the code never samples the last one. -/
structure RunEnv where
  host_be : Bool
  writeTimeout : Nat
  gathered : List CoapSocket
  endpoints : List CoapEndpoint
  msg : Option GnrcMsg
  tickEntry : Nat
  tickPostWait : Nat
  tickPostRead : Nat
  ticksPerSecond : Nat
deriving DecidableEq

/-- Externally visible steps of one `coap_run_once` call, in order. -/
inductive RunAction where
  | ticksSample (t : Nat)
  | write
  | register
  | waitUs (us : Nat)
  | read (t : Nat)
  | unregister
deriving DecidableEq

/-- Result of `coap_run_once`: the returned elapsed-milliseconds value,
the ordered action trace, and the gathered sockets after dispatch. -/
structure RunResult where
  ret : Int
  trace : List RunAction
  sockets : List CoapSocket
deriving DecidableEq

/-- `coap_run_once(ctx, timeout_ms)`. Mirrors the C: sample ticks; call
`coap_write`; clamp the timeout (the clamp is computed twice and the
result is left unused); register for UDP when any socket was gathered;
wait with bound `timeout_ms * US_PER_SEC` microseconds; dispatch a RCV
message through the endpoint walk; sample ticks again; call `coap_read`;
unregister; return `((now - before) * 1000) / COAP_TICKS_PER_SECOND`. -/
def coap_run_once (env : RunEnv) (timeout_ms : Nat) : RunResult :=
  let before := env.tickEntry
  let timeout1 := env.writeTimeout
  let timeout2 := if timeout1 = 0 ∨ timeout_ms < timeout1 then timeout_ms else timeout1
  let regTrace : List RunAction :=
    if env.gathered.length > 0 then [RunAction.register] else []
  let timeout3 := if timeout2 = 0 ∨ timeout_ms < timeout2 then timeout_ms else timeout2
  -- the clamped value is dead: the wait below uses timeout_ms directly
  let waitBound := timeout_ms * US_PER_SEC
  let socks :=
    match env.msg with
    | some m =>
      match m.type with
      | MsgType.rcv =>
        match get_udp_header m.pkt with
        | some udp_hdr =>
          dispatchRcv env.host_be udp_hdr.dst_port m.pkt env.endpoints env.gathered
        | none => env.gathered
      | _ => env.gathered
    | none => env.gathered
  let now := env.tickPostWait
  { ret := ((((now - before) * 1000) / env.ticksPerSecond : Nat) : Int),
    trace := [RunAction.ticksSample before, RunAction.write] ++ regTrace ++
      [RunAction.waitUs waitBound, RunAction.ticksSample now,
       RunAction.read now, RunAction.unregister],
    sockets := socks }

/-- Follows the spec's words (refinement comparison): the wait-phase bound
in milliseconds — `min(library-requested timeout, caller timeout)`, with a
library value of 0 meaning the caller-supplied timeout governs. -/
def spec_wait_bound_ms (libTimeout timeout_ms : Nat) : Nat :=
  if libTimeout = 0 then timeout_ms else min libTimeout timeout_ms

/-- Follows the spec's words (refinement comparison): the return value as
the spec describes it — ticks sampled at entry and after the drive phase,
scaled to milliseconds. -/
def spec_run_once_return (env : RunEnv) : Nat :=
  ((env.tickPostRead - env.tickEntry) * 1000) / env.ticksPerSecond

/-- C4: with CAN_READ set and a well-formed chain of payload length L,
`coap_network_read` produces a record of length L with exactly those
payload bytes when L ≤ COAP_RXBUFFER_SIZE, and a record of length
COAP_RXBUFFER_SIZE holding the first COAP_RXBUFFER_SIZE payload bytes when
L exceeds the capacity; in every case the record's payload never exceeds
the capacity. -/
theorem coap_network_read_payload_spec (sock : CoapSocket) (packet : CoapPacket)
    (ih : Ipv6Hdr) (uh : UdpHdr) (pl : List Nat)
    (hcr : sock.canRead = true)
    (hpkt : sock.pkt = some { ipv6 := some ih, udpSnip := some (some uh), payload := pl }) :
    (coap_network_read sock packet).packet.payload.length ≤ COAP_RXBUFFER_SIZE
    ∧ (pl.length ≤ COAP_RXBUFFER_SIZE →
        (coap_network_read sock packet).packet.length = pl.length
        ∧ (coap_network_read sock packet).packet.payload = pl)
    ∧ (COAP_RXBUFFER_SIZE < pl.length →
        (coap_network_read sock packet).packet.length = COAP_RXBUFFER_SIZE
        ∧ (coap_network_read sock packet).packet.payload.length = COAP_RXBUFFER_SIZE) := by
  simp only [coap_network_read, hcr, Bool.true_eq_false, if_false, hpkt,
    gnrc_pkt_len_upto_udp, UDP_HDR_SIZE, Nat.add_sub_cancel_left]
  by_cases hgt : pl.length > COAP_RXBUFFER_SIZE
  · simp only [hgt, if_true, List.length_take]
    refine ⟨by omega, fun hle => by omega, fun _ => ⟨by split <;> omega, by omega⟩⟩
  · simp only [hgt, if_false, List.length_take]
    refine ⟨by omega, fun _ => ⟨by split <;> omega, ?_⟩, fun hlt => hlt.elim⟩
    simp

/-- Witness for `coap_network_read_payload_spec`: an endpoint socket holding
a well-formed chain with payload "hello" (5 bytes ≤ capacity). -/
theorem coap_network_read_payload_spec_witness :
    let uh : UdpHdr := ⟨⟨22, 51⟩, ⟨22, 51⟩, ⟨0, 13⟩, ⟨0, 0⟩⟩
    let pk : GnrcPkt :=
      { ipv6 := some ⟨List.replicate 16 0, List.replicate 16 1⟩,
        udpSnip := some (some uh), payload := [104, 101, 108, 108, 111] }
    let sock : CoapSocket :=
      { fd := 7, connected := false, wantRead := true, canRead := true, pkt := some pk }
    let packet : CoapPacket :=
      { ifindex := 0, length := 0, payload := [], src := ⟨0, SaFamily.af_other 0, [], port0⟩,
        dst := ⟨0, SaFamily.af_other 0, [], port0⟩ }
    (coap_network_read sock packet).packet.length = 5
    ∧ (coap_network_read sock packet).packet.payload = [104, 101, 108, 108, 111] := by
  intro uh pk sock packet
  have h := coap_network_read_payload_spec sock packet
    ⟨List.replicate 16 0, List.replicate 16 1⟩ uh [104, 101, 108, 108, 111]
    (by rfl) (by rfl)
  exact h.2.1 (by decide)

/-- C5: with CAN_READ set, a chain missing the IPv6 header, the UDP
fragment, or the UDP fragment's data region makes `coap_network_read`
return `-EFAULT` (a negative fault code) and leave the caller's packet
record untouched. -/
theorem coap_network_read_malformed_spec (sock : CoapSocket) (packet : CoapPacket)
    (p : GnrcPkt)
    (hcr : sock.canRead = true)
    (hpkt : sock.pkt = some p)
    (hmal : p.ipv6 = none ∨ p.udpSnip = none ∨ p.udpSnip = some none) :
    (coap_network_read sock packet).ret = -(EFAULT : Int)
    ∧ (coap_network_read sock packet).ret < 0
    ∧ (coap_network_read sock packet).packet = packet := by
  have hret : coap_network_read sock packet =
      { ret := -(EFAULT : Int), sock := { sock with canRead := false }, packet := packet } := by
    simp only [coap_network_read, hcr, Bool.true_eq_false, if_false, hpkt]
    rcases hmal with h | h | h
    · rw [h]
    · rw [h]
      cases p.ipv6 <;> rfl
    · rw [h]
      cases p.ipv6 <;> rfl
  rw [hret]
  refine ⟨rfl, by norm_num [EFAULT], rfl⟩

/-- Witness for `coap_network_read_malformed_spec`: a chain whose UDP
fragment is present but has a NULL data region. -/
theorem coap_network_read_malformed_spec_witness :
    let pk : GnrcPkt := { ipv6 := some ⟨[], []⟩, udpSnip := some none, payload := [1, 2] }
    let sock : CoapSocket :=
      { fd := 3, connected := false, wantRead := true, canRead := true, pkt := some pk }
    let packet : CoapPacket :=
      { ifindex := 9, length := 4, payload := [9], src := ⟨0, SaFamily.af_other 0, [], port0⟩,
        dst := ⟨0, SaFamily.af_other 0, [], port0⟩ }
    (coap_network_read sock packet).ret = -(EFAULT : Int)
    ∧ (coap_network_read sock packet).packet = packet := by
  intro pk sock packet
  have h := coap_network_read_malformed_spec sock packet pk (by rfl) (by rfl)
    (Or.inr (Or.inr (by rfl)))
  exact ⟨h.1, h.2.2⟩

/-- C6: without CAN_READ, `coap_network_read` fails with -1 and changes
neither the socket nor the packet record; with CAN_READ, the flag is
cleared on entry (in every outcome), so a second call on the resulting
socket fails with -1 and leaves its arguments unchanged — one readiness
signal is consumed by exactly one invocation. -/
theorem coap_network_read_can_read_gate (sock : CoapSocket) (p q : CoapPacket) :
    (sock.canRead = false →
      coap_network_read sock p = { ret := -1, sock := sock, packet := p })
    ∧ (sock.canRead = true →
      (coap_network_read sock p).sock = { sock with canRead := false }
      ∧ (coap_network_read (coap_network_read sock p).sock q).ret = -1
      ∧ (coap_network_read (coap_network_read sock p).sock q).sock =
          (coap_network_read sock p).sock
      ∧ (coap_network_read (coap_network_read sock p).sock q).packet = q) := by
  refine ⟨fun h => by simp [coap_network_read, h], fun h => ?_⟩
  have hs : (coap_network_read sock p).sock = { sock with canRead := false } := by
    cases hp : sock.pkt with
    | none => simp [coap_network_read, h, hp]
    | some pk =>
      cases hu : pk.udpSnip with
      | none => cases hi : pk.ipv6 <;> simp [coap_network_read, h, hp, hi, hu]
      | some o =>
        cases o <;> cases hi : pk.ipv6 <;> simp [coap_network_read, h, hp, hi, hu]
  refine ⟨hs, ?_, ?_, ?_⟩ <;> rw [hs] <;> simp [coap_network_read]

/-- Witness for `coap_network_read_can_read_gate` at a concrete socket with
CAN_READ set and an attached chain. -/
theorem coap_network_read_can_read_gate_witness :
    let sock : CoapSocket :=
      { fd := 1, connected := false, wantRead := true, canRead := true,
        pkt := some { ipv6 := none, udpSnip := none, payload := [] } }
    let p : CoapPacket :=
      { ifindex := 0, length := 0, payload := [], src := ⟨0, SaFamily.af_other 0, [], port0⟩,
        dst := ⟨0, SaFamily.af_other 0, [], port0⟩ }
    (coap_network_read sock p).sock = { sock with canRead := false }
    ∧ (coap_network_read (coap_network_read sock p).sock p).ret = -1 := by
  intro sock p
  have h := (coap_network_read_can_read_gate sock p p).2 (by rfl)
  exact ⟨h.1, h.2.1⟩

/-- C7: `coap_network_send` with debug suppression active returns the full
length with no network call; on a CONNECTED socket it performs exactly one
connection-oriented `send` of the buffer (no peer address) and returns the
stack's result unmodified; otherwise it performs exactly one `sendto` to
the session's stored remote address and size, returning the stack's result
unmodified (negative results included — no retry occurs). -/
theorem coap_network_send_spec (env : SendEnv) (sock : CoapSocket)
    (session : CoapSession) (data : List Nat) :
    (env.debug_send_packet = false →
      coap_network_send env sock session data =
        { ret := (data.length : Int), actions := [] })
    ∧ (env.debug_send_packet = true → sock.connected = true →
      coap_network_send env sock session data =
        { ret := env.send_result, actions := [NetAction.send sock.fd data] })
    ∧ (env.debug_send_packet = true → sock.connected = false →
      coap_network_send env sock session data =
        { ret := env.sendto_result,
          actions := [NetAction.sendto sock.fd data session.remote_addr
            session.remote_addr.size] }) := by
  refine ⟨fun h => by simp [coap_network_send, h],
    fun h hc => by simp [coap_network_send, h, hc],
    fun h hc => by simp [coap_network_send, h, hc]⟩

/-- Witness for `coap_network_send_spec`: a concrete unconnected socket with
a failing stack send (-5), surfaced unmodified as one `sendto`. -/
theorem coap_network_send_spec_witness :
    let env : SendEnv := { debug_send_packet := true, send_result := 3, sendto_result := -5 }
    let sock : CoapSocket :=
      { fd := 4, connected := false, wantRead := false, canRead := false, pkt := none }
    let addr : CoapAddress := ⟨28, SaFamily.af_inet6, List.replicate 16 2, ⟨22, 51⟩⟩
    coap_network_send env sock ⟨addr⟩ [1, 2, 3] =
      { ret := -5, actions := [NetAction.sendto 4 [1, 2, 3] addr 28] } := by
  intro env sock addr
  exact (coap_network_send_spec env sock ⟨addr⟩ [1, 2, 3]).2.2 (by rfl) (by rfl)

/-- Reading a stored 16-bit field with a fixed host endianness is injective:
two fields read equal exactly when their on-wire bytes are equal. -/
lemma load16_inj (host_be : Bool) (x y : NetU16) :
    load16 host_be x = load16 host_be y ↔ x = y := by
  constructor
  · intro h
    obtain ⟨x0, x1⟩ := x
    obtain ⟨y0, y1⟩ := y
    have hx0 := x0.isLt
    have hx1 := x1.isLt
    have hy0 := y0.isLt
    have hy1 := y1.isLt
    cases host_be <;> simp only [load16, Bool.false_eq_true, if_false, if_true] at h <;>
      (congr 1 <;> exact Fin.ext (by omega))
  · intro h
    rw [h]

/-- The all-zero field reads as 0 on either endianness. -/
lemma load16_port0 (host_be : Bool) : load16 host_be port0 = 0 := by
  cases host_be <;> simp [load16, port0]

/-- C8: for an endpoint address of family AF_INET or AF_INET6, the
demultiplexer's comparison `get_port(&ep->bind_addr) == udp_hdr->dst_port.u16`
— two plain `uint16_t` reads of fields stored in on-wire order, on a host
of either endianness — succeeds exactly when the stored on-wire byte pairs
are equal: both sides are compared in network byte order and no byte-order
conversion is applied to either side. -/
theorem get_port_compare_on_wire (host_be : Bool) (a : CoapAddress) (dstPort : NetU16)
    (hfam : a.family = SaFamily.af_inet ∨ a.family = SaFamily.af_inet6) :
    (get_port host_be (some a) = load16 host_be dstPort) ↔ a.port = dstPort := by
  rcases hfam with h | h <;> rw [get_port, h] <;> exact load16_inj host_be a.port dstPort

/-- Witness for `get_port_compare_on_wire`: the on-wire pair (0x16, 0x33)
for port 5683 matches itself on a little-endian host. -/
theorem get_port_compare_on_wire_witness :
    let a : CoapAddress := ⟨28, SaFamily.af_inet6, [], ⟨22, 51⟩⟩
    (get_port false (some a) = load16 false ⟨22, 51⟩) ↔ (a.port : NetU16) = ⟨22, 51⟩ := by
  intro a
  exact get_port_compare_on_wire false a ⟨22, 51⟩ (Or.inr rfl)

/-- C10: `get_port` yields 0 for a NULL address and for any address whose
family is neither AF_INET nor AF_INET6, and for such an endpoint the
demultiplexer's match condition against an inbound datagram holds exactly
when the datagram's on-wire destination-port field is all zero — the
endpoint is never woken otherwise. -/
theorem get_port_zero_default (host_be : Bool) (a : CoapAddress) (n : Nat) (hdr : UdpHdr)
    (hfam : a.family = SaFamily.af_other n) :
    get_port host_be none = 0
    ∧ get_port host_be (some a) = 0
    ∧ ((get_port host_be (some a) = load16 host_be hdr.dst_port) ↔ hdr.dst_port = port0) := by
  have hz : get_port host_be (some a) = 0 := by rw [get_port, hfam]
  refine ⟨rfl, hz, ?_⟩
  rw [hz]
  constructor
  · intro h
    have h2 : load16 host_be port0 = load16 host_be hdr.dst_port := by
      rw [load16_port0, h]
    exact ((load16_inj host_be port0 hdr.dst_port).mp h2).symm
  · intro h
    rw [h, load16_port0]

/-- Witness for `get_port_zero_default` at a concrete AF_UNSPEC-style
address and a datagram destined to on-wire port (0x16, 0x33). -/
theorem get_port_zero_default_witness :
    get_port true none = 0
    ∧ get_port true (some ⟨28, SaFamily.af_other 0, [], ⟨22, 51⟩⟩) = 0
    ∧ ((get_port true (some ⟨28, SaFamily.af_other 0, [], ⟨22, 51⟩⟩) =
        load16 true (⟨⟨0, 0⟩, ⟨22, 51⟩, ⟨0, 0⟩, ⟨0, 0⟩⟩ : UdpHdr).dst_port) ↔
      (⟨⟨0, 0⟩, ⟨22, 51⟩, ⟨0, 0⟩, ⟨0, 0⟩⟩ : UdpHdr).dst_port = port0) :=
  get_port_zero_default true ⟨28, SaFamily.af_other 0, [], ⟨22, 51⟩⟩ 0
    ⟨⟨0, 0⟩, ⟨22, 51⟩, ⟨0, 0⟩, ⟨0, 0⟩⟩ rfl

/-- A quiet environment: library timeout 0 (no ready timer), nothing
gathered, no endpoint, no notification within the wait window. -/
def envC1 : RunEnv :=
  { host_be := false, writeTimeout := 0, gathered := [], endpoints := [], msg := none,
    tickEntry := 0, tickPostWait := 0, tickPostRead := 0, ticksPerSecond := 1000 }

/-- C1 (evaluation at the failing input): with a library-requested timeout
of 0 and caller timeout 1 ms, the wait is issued with bound
`1 * US_PER_SEC` = 1000000 microseconds (1000 ms), a thousand times the
1 ms bound the spec states (the min-clamped `timeout` the code computes is
never passed to the wait); the drive phase is still reached afterwards. -/
theorem coap_run_once_wait_eval :
    RunAction.waitUs 1000000 ∈ (coap_run_once envC1 1).trace
    ∧ spec_wait_bound_ms envC1.writeTimeout 1 = 1
    ∧ RunAction.read envC1.tickPostWait ∈ (coap_run_once envC1 1).trace
    ∧ spec_wait_bound_ms envC1.writeTimeout 1 * 1000 < 1000000 := by decide

/-- An environment whose monotonic clock reads 0 at entry, 5 ticks at the
second sample and 7 ticks once `coap_read` has returned. -/
def envC3 : RunEnv :=
  { host_be := false, writeTimeout := 0, gathered := [], endpoints := [], msg := none,
    tickEntry := 0, tickPostWait := 5, tickPostRead := 7, ticksPerSecond := 1000 }

/-- C3 counterexample: the returned value is computed from the tick sample
taken before `coap_read`, not from one taken after the drive phase — at a
clock reading 5 ticks before `coap_read` and 7 after it, the call returns
5 ms while the spec's description yields 7 ms. -/
theorem coap_run_once_return_counterexample :
    (coap_run_once envC3 0).ret = 5
    ∧ spec_run_once_return envC3 = 7
    ∧ (coap_run_once envC3 0).ret ≠ (spec_run_once_return envC3 : Int) := by decide

/-- C3 amended: `coap_run_once` returns
`((now - before) * 1000) / COAP_TICKS_PER_SECOND` where `before` is the
tick sample at entry and `now` the sample taken after the wait/dispatch
phases and immediately BEFORE the drive phase (`coap_read`): in the action
trace the second sample directly precedes the read, whose duration is not
counted. -/
theorem coap_run_once_return_spec (env : RunEnv) (T : Nat) :
    (coap_run_once env T).ret =
      ((((env.tickPostWait - env.tickEntry) * 1000) / env.ticksPerSecond : Nat) : Int)
    ∧ ∃ l1 l2, (coap_run_once env T).trace =
        l1 ++ [RunAction.ticksSample env.tickPostWait, RunAction.read env.tickPostWait] ++ l2 := by
  constructor
  · rfl
  · by_cases h : env.gathered.length > 0
    · exact ⟨[RunAction.ticksSample env.tickEntry, RunAction.write, RunAction.register,
        RunAction.waitUs (T * US_PER_SEC)], [RunAction.unregister],
        by simp [coap_run_once, h]⟩
    · exact ⟨[RunAction.ticksSample env.tickEntry, RunAction.write,
        RunAction.waitUs (T * US_PER_SEC)], [RunAction.unregister],
        by simp [coap_run_once, h]⟩

/-- An environment where `coap_write` gathers one socket that wants to
write but not to read. -/
def envC9 : RunEnv :=
  { host_be := false, writeTimeout := 0,
    gathered := [⟨2, false, false, false, none⟩],
    endpoints := [], msg := none,
    tickEntry := 0, tickPostWait := 0, tickPostRead := 0, ticksPerSecond := 1000 }

/-- C9 counterexample: registration is keyed on the gathered set being
nonempty, not on read interest — with one gathered socket that does not
want reading, the UDP interest is still registered. -/
theorem coap_run_once_register_counterexample :
    RunAction.register ∈ (coap_run_once envC9 3).trace
    ∧ ∀ s ∈ envC9.gathered, s.wantRead = false := by decide

/-- C9 amended: UDP inbound interest is registered exactly when
`coap_write` gathered at least one socket (`num_sockets > 0`, whatever its
flags), and the cleanup deregistration runs on every call — including
calls where nothing was registered. -/
theorem coap_run_once_register_unregister_spec (env : RunEnv) (T : Nat) :
    (RunAction.register ∈ (coap_run_once env T).trace ↔ env.gathered ≠ [])
    ∧ RunAction.unregister ∈ (coap_run_once env T).trace := by
  by_cases h : env.gathered.length > 0
  · refine ⟨⟨fun _ => ?_, fun _ => ?_⟩, ?_⟩
    · rcases hg : env.gathered with _ | ⟨s, l⟩
      · rw [hg] at h
        exact absurd h (by simp)
      · simp
    · simp [coap_run_once, h]
    · simp [coap_run_once, h]
  · have hnil : env.gathered = [] := by
      rcases hg : env.gathered with _ | ⟨s, l⟩
      · rfl
      · rw [hg] at h
        exact absurd (by simp) h
    refine ⟨⟨fun hmem => ?_, fun hne => absurd hnil hne⟩, ?_⟩
    · exfalso
      simp [coap_run_once, h] at hmem
    · simp [coap_run_once, h]

/-- Number of sockets currently marked CAN_READ. -/
def countRead (l : List CoapSocket) : Nat :=
  l.countP (fun s => s.canRead)

/-- Number of endpoints whose bound port matches the datagram's on-wire
destination port under the demultiplexer's comparison. -/
def countMatch (host_be : Bool) (dstPort : NetU16) (eps : List CoapEndpoint) : Nat :=
  eps.countP (fun ep => decide (get_port host_be (some ep.bind_addr) = load16 host_be dstPort))

lemma forall2_of_refl {α : Type} {R : α → α → Prop} (h : ∀ a, R a a) :
    ∀ l : List α, List.Forall₂ R l l
  | [] => List.Forall₂.nil
  | a :: l => List.Forall₂.cons (h a) (forall2_of_refl h l)

lemma forall2_comp {α : Type} {R S T : α → α → Prop}
    (hc : ∀ a b c, R a b → S b c → T a c) :
    ∀ {l1 l2 l3 : List α}, List.Forall₂ R l1 l2 → List.Forall₂ S l2 l3 →
      List.Forall₂ T l1 l3 := by
  intro l1 l2 l3 h12
  induction h12 generalizing l3 with
  | nil =>
    intro h23
    cases h23
    exact List.Forall₂.nil
  | cons hr hrs ih =>
    intro h23
    cases h23 with
    | cons hs hst => exact List.Forall₂.cons (hc _ _ _ hr hs) (ih hst)

/-- The inner socket scan raises the number of CAN_READ sockets by at most
one: at most one socket is woken per matching endpoint. -/
lemma wakeFirst_countRead (fd : Nat) (pkt : GnrcPkt) :
    ∀ l : List CoapSocket, countRead (wakeFirst fd pkt l) ≤ countRead l + 1 := by
  intro l
  induction l with
  | nil => simp [wakeFirst, countRead]
  | cons s rest ih =>
    by_cases hc : s.fd = fd ∧ s.wantRead
    · simp only [wakeFirst, if_pos hc, countRead, List.countP_cons]
      cases hcr : s.canRead <;> simp
    · simp only [wakeFirst, if_neg hc, countRead, List.countP_cons]
      cases hcr : s.canRead <;> simp <;> exact ih

/-- The inner socket scan preserves descriptors and wakes only sockets
whose descriptor is the matching endpoint's. -/
lemma wakeFirst_rel (fd : Nat) (pkt : GnrcPkt) :
    ∀ l : List CoapSocket, List.Forall₂ (fun s t => s.fd = t.fd ∧
      (t.canRead = true → s.canRead = true ∨ t.fd = fd)) l (wakeFirst fd pkt l) := by
  intro l
  induction l with
  | nil => exact List.Forall₂.nil
  | cons s rest ih =>
    by_cases hc : s.fd = fd ∧ s.wantRead
    · simp only [wakeFirst, if_pos hc]
      exact List.Forall₂.cons ⟨rfl, fun _ => Or.inr hc.1⟩
        (forall2_of_refl (fun a => ⟨rfl, fun h => Or.inl h⟩) rest)
    · simp only [wakeFirst, if_neg hc]
      exact List.Forall₂.cons ⟨rfl, fun h => Or.inl h⟩ ih

/-- The endpoint walk wakes at most one socket per matching endpoint. -/
lemma dispatchRcv_countRead (host_be : Bool) (dstPort : NetU16) (pkt : GnrcPkt) :
    ∀ (eps : List CoapEndpoint) (socks : List CoapSocket),
      countRead (dispatchRcv host_be dstPort pkt eps socks)
        ≤ countRead socks + countMatch host_be dstPort eps := by
  intro eps
  induction eps with
  | nil =>
    intro socks
    simp [dispatchRcv, countMatch]
  | cons ep eps ih =>
    intro socks
    by_cases hm : get_port host_be (some ep.bind_addr) = load16 host_be dstPort
    · have h1 := ih (wakeFirst ep.sock_fd pkt socks)
      have h2 := wakeFirst_countRead ep.sock_fd pkt socks
      have h3 : countMatch host_be dstPort (ep :: eps) =
          countMatch host_be dstPort eps + 1 := by
        simp [countMatch, List.countP_cons, hm]
      simp only [dispatchRcv, if_pos hm]
      omega
    · have h1 := ih socks
      have h3 : countMatch host_be dstPort (ep :: eps) = countMatch host_be dstPort eps := by
        simp [countMatch, List.countP_cons, hm]
      simp only [dispatchRcv, if_neg hm]
      omega

/-- The endpoint walk preserves descriptors and wakes a socket only when
some endpoint whose bound port matches the datagram's destination port has
that socket's descriptor. -/
lemma dispatchRcv_rel (host_be : Bool) (dstPort : NetU16) (pkt : GnrcPkt) :
    ∀ (eps : List CoapEndpoint) (socks : List CoapSocket),
      List.Forall₂ (fun s t => s.fd = t.fd ∧ (t.canRead = true → s.canRead = true ∨
        ∃ ep ∈ eps, get_port host_be (some ep.bind_addr) = load16 host_be dstPort
          ∧ t.fd = ep.sock_fd)) socks (dispatchRcv host_be dstPort pkt eps socks) := by
  intro eps
  induction eps with
  | nil =>
    intro socks
    exact forall2_of_refl (fun a => ⟨rfl, fun h => Or.inl h⟩) socks
  | cons ep eps ih =>
    intro socks
    by_cases hm : get_port host_be (some ep.bind_addr) = load16 host_be dstPort
    · simp only [dispatchRcv, if_pos hm]
      refine forall2_comp ?_ (wakeFirst_rel ep.sock_fd pkt socks)
        (ih (wakeFirst ep.sock_fd pkt socks))
      rintro a b c ⟨hfd1, hcr1⟩ ⟨hfd2, hcr2⟩
      refine ⟨hfd1.trans hfd2, fun hc => ?_⟩
      rcases hcr2 hc with hb | ⟨ep2, hmem, hp, hfd⟩
      · rcases hcr1 hb with ha | hfd
        · exact Or.inl ha
        · exact Or.inr ⟨ep, List.mem_cons_self ep eps, hm, by rw [← hfd2]; exact hfd⟩
      · exact Or.inr ⟨ep2, List.mem_cons_of_mem ep hmem, hp, hfd⟩
    · simp only [dispatchRcv, if_neg hm]
      refine List.Forall₂.imp ?_ (ih socks)
      rintro a b ⟨hfd, hcr⟩
      refine ⟨hfd, fun hc => ?_⟩
      rcases hcr hc with ha | ⟨ep2, hmem, hp, hfd2⟩
      · exact Or.inl ha
      · exact Or.inr ⟨ep2, List.mem_cons_of_mem ep hmem, hp, hfd2⟩

/-- The on-wire byte pair (0x16, 0x33) — port 5683. -/
def portC2 : NetU16 := ⟨22, 51⟩

/-- A UDP header destined to on-wire port (0x16, 0x33). -/
def hdrC2 : UdpHdr := ⟨⟨0, 0⟩, portC2, ⟨0, 9⟩, ⟨0, 0⟩⟩

/-- An inbound chain carrying `hdrC2`. -/
def pkC2 : GnrcPkt := ⟨some ⟨List.replicate 16 0, List.replicate 16 1⟩, some (some hdrC2), [1]⟩

/-- Two endpoints bound to the same on-wire port, with sockets 1 and 2,
both gathered and wanting to read; one RECEIVE notification for that port. -/
def envC2 : RunEnv :=
  { host_be := false, writeTimeout := 0,
    gathered := [⟨1, false, true, false, none⟩, ⟨2, false, true, false, none⟩],
    endpoints := [⟨⟨28, SaFamily.af_inet6, [], portC2⟩, 1⟩, ⟨⟨28, SaFamily.af_inet6, [], portC2⟩, 2⟩],
    msg := some ⟨MsgType.rcv, pkC2⟩,
    tickEntry := 0, tickPostWait := 0, tickPostRead := 0, ticksPerSecond := 1000 }

/-- C2 counterexample: with two endpoints sharing the bound port, one
RECEIVE notification marks BOTH their sockets CAN_READ and hands both the
fragment-chain reference — the endpoint scan does not stop at the first
match, so more than one socket is woken. -/
theorem coap_run_once_rcv_two_woken :
    countRead envC2.gathered = 0
    ∧ countRead (coap_run_once envC2 0).sockets = 2
    ∧ ∀ s ∈ (coap_run_once envC2 0).sockets, s.pkt = some pkC2 := by decide

/-- C2 amended: on a RECEIVE notification with a readable UDP header, the
dispatched socket set is the endpoint walk's result; the number of
CAN_READ sockets grows by at most the number of endpoints whose bound port
matches the datagram's on-wire destination port (at most one newly woken
socket per matching endpoint — but every matching endpoint can wake its
socket, the scan does not stop at the first); descriptors are preserved,
and a socket is woken only if some endpoint with a matching bound port has
that socket's descriptor — a notification for port P1 never wakes an
endpoint bound to a different port. -/
theorem coap_run_once_rcv_wake_spec (env : RunEnv) (T : Nat) (m : GnrcMsg) (hdr : UdpHdr)
    (hm : env.msg = some m) (ht : m.type = MsgType.rcv)
    (hh : get_udp_header m.pkt = some hdr) :
    (coap_run_once env T).sockets =
      dispatchRcv env.host_be hdr.dst_port m.pkt env.endpoints env.gathered
    ∧ countRead (coap_run_once env T).sockets
        ≤ countRead env.gathered + countMatch env.host_be hdr.dst_port env.endpoints
    ∧ List.Forall₂ (fun s t => s.fd = t.fd ∧ (t.canRead = true → s.canRead = true ∨
        ∃ ep ∈ env.endpoints,
          get_port env.host_be (some ep.bind_addr) = load16 env.host_be hdr.dst_port
          ∧ t.fd = ep.sock_fd))
        env.gathered (coap_run_once env T).sockets := by
  have hsk : (coap_run_once env T).sockets =
      dispatchRcv env.host_be hdr.dst_port m.pkt env.endpoints env.gathered := by
    simp [coap_run_once, hm, ht, hh]
  refine ⟨hsk, ?_, ?_⟩
  · rw [hsk]
    exact dispatchRcv_countRead env.host_be hdr.dst_port m.pkt env.endpoints env.gathered
  · rw [hsk]
    exact dispatchRcv_rel env.host_be hdr.dst_port m.pkt env.endpoints env.gathered

/-- Witness for `coap_run_once_rcv_wake_spec` at the concrete two-endpoint
environment. -/
theorem coap_run_once_rcv_wake_spec_witness :
    (coap_run_once envC2 0).sockets =
      dispatchRcv false hdrC2.dst_port pkC2 envC2.endpoints envC2.gathered
    ∧ countRead (coap_run_once envC2 0).sockets
        ≤ countRead envC2.gathered + countMatch false hdrC2.dst_port envC2.endpoints := by
  have h := coap_run_once_rcv_wake_spec envC2 0 ⟨MsgType.rcv, pkC2⟩ hdrC2 rfl rfl rfl
  exact ⟨h.1, h.2.1⟩

end CoapIoRiot
